import Mathlib

/-!
Shallow embedding of the Volt behavioural-simulation services:
`app/services/simulations/reallocation.py` (`simulate_reallocation`),
`app/services/simulations/projection.py` (`project_future_spending`) and
`app/utils/category_utils.py` (`get_category_reliability_score`).

Python dictionaries become association lists (`List (String × _)`), float
arithmetic becomes exact rational arithmetic, `raise ValueError` becomes
`Except.error`, and the `random` module becomes an explicit generator record
whose state is threaded through the computation.  The essential/discretionary
taxonomy (`ESSENTIAL_CATEGORIES`, imported from `app.utils.constants`) is an
externally supplied partition of category names, so it appears here as a
parameter `essential : List String`.  Display-only artefacts (month labels,
recommendation sentences, chart payloads, currency formatting inside warning
strings) are not modelled; warnings keep their category and the numbers that
the formatted message reports.
-/

namespace Volt

/-- One entry of `model.category_stats`: the per-category running aggregate
(the fields read by the services modelled here). -/
structure CatStat where
  count : Nat
  mean : ℚ
  std_dev : ℚ
deriving Repr, DecidableEq

/-- The per-user behaviour model row (`BehaviourModel`), restricted to the
fields the simulation services read. -/
structure BehaviourModel where
  category_stats : List (String × CatStat)
  elasticity : List (String × ℚ)
  impulse_score : ℚ
deriving Repr, DecidableEq

/-- Feasibility band assigned to a single category reallocation. -/
inductive Feasibility where
  | comfortable
  | moderate
  | difficult
  | unrealistic
deriving Repr, DecidableEq

/-- The `ValueError`s (and the `ZeroDivisionError`) that
`simulate_reallocation` / `project_future_spending` can raise.
`categoryNotInHistory` covers both the source check (line 73) and the
all-categories check (line 86), which raise the same message
"Category '...' not found in your spending history". -/
inductive SimError where
  | noBehaviourModel
  | noTransactions
  | essentialSource (category : String)
  | categoryNotInHistory (category : String)
  | discretionaryTarget (category : String)
  | zeroDivisionError
deriving Repr, DecidableEq

/-- Structured form of the warning strings appended by
`simulate_reallocation`; each constructor keeps the category and the numbers
interpolated into the corresponding f-string. -/
inductive Warning where
  | difficultReduction (category : String) (reductionPct maxComfortablePct : ℚ)
  | excessiveReduction (category : String) (reductionPct : ℚ)
  | substantialEssentialIncrease (category : String) (changePct : ℚ)
deriving Repr, DecidableEq

/-- The `CategoryReallocation` schema object. -/
structure CategoryReallocation where
  category : String
  current_monthly : ℚ
  change_amount : ℚ
  new_monthly : ℚ
  change_percent : ℚ
  feasibility : Feasibility
  impact_note : String
deriving Repr, DecidableEq

/-- The `ReallocationResponse` schema object (recommendations and
`visual_data`, which merely re-present `reallocations`, are not modelled). -/
structure ReallocationResponse where
  baseline_monthly : ℚ
  projected_monthly : ℚ
  is_balanced : Bool
  reallocations : List CategoryReallocation
  feasibility_assessment : String
  warnings : List Warning
deriving Repr, DecidableEq

/-- `stats.get(category, \x7b\x7d).get("mean", 0)`. -/
def getMean (stats : List (String × CatStat)) (category : String) : ℚ :=
  match stats.lookup category with
  | some st => st.mean
  | none => 0

/-- `elasticity_map.get(category, 0.3)`. -/
def getElasticity (elasticity_map : List (String × ℚ)) (category : String) : ℚ :=
  (elasticity_map.lookup category).getD (3/10)

/-- `change_percent = (change / current * 100) if current > 0 else 0`
(reallocation.py line 108). -/
def changePercent (current change : ℚ) : ℚ :=
  if 0 < current then change / current * 100 else 0

/-- The fixed list of beneficial sinks accepted as positive-delta targets. -/
def beneficialSinks : List String := ["SAVINGS", "DEBT_PAYMENT", "INVESTMENT"]

/-- Source-category validation loop (reallocation.py lines 66-73): each
negative-delta category must be non-essential and present in the stats. -/
def validateSources (essential : List String) (stats : List (String × CatStat)) :
    List String → Except SimError Unit
  | [] => .ok ()
  | c :: rest =>
    if c ∈ essential then .error (.essentialSource c)
    else if (stats.lookup c).isNone then .error (.categoryNotInHistory c)
    else validateSources essential stats rest

/-- Target-category validation loop (reallocation.py lines 76-81): each
positive-delta category must be essential or a beneficial sink. -/
def validateTargets (essential : List String) : List String → Except SimError Unit
  | [] => .ok ()
  | c :: rest =>
    if c ∉ essential ∧ c ∉ beneficialSinks then .error (.discretionaryTarget c)
    else validateTargets essential rest

/-- All-categories existence check (reallocation.py lines 84-86). -/
def validateCategoriesExist (stats : List (String × CatStat)) :
    List String → Except SimError Unit
  | [] => .ok ()
  | c :: rest =>
    if (stats.lookup c).isNone ∧ c ∉ ["SAVINGS", "DEBT_PAYMENT", "INVESTMENT", "OTHER"] then
      .error (.categoryNotInHistory c)
    else validateCategoriesExist stats rest

/-- The reduction branch of the feasibility assessment (reallocation.py lines
113-130): band, impact note and appended warnings. -/
def assessReduction (category : String) (reduction_pct max_reduction_pct : ℚ) :
    Feasibility × String × List Warning :=
  if reduction_pct ≤ max_reduction_pct * (1/2) then
    (.comfortable, "Easily achievable reduction", [])
  else if reduction_pct ≤ max_reduction_pct then
    (.moderate, "Achievable with some effort", [])
  else if reduction_pct ≤ max_reduction_pct * (3/2) then
    (.difficult, "Challenging - requires significant lifestyle changes",
     [.difficultReduction category reduction_pct max_reduction_pct])
  else
    (.unrealistic, "Likely unrealistic given your spending patterns",
     [.excessiveReduction category reduction_pct])

/-- The essential-increase branch (reallocation.py lines 133-143). -/
def assessEssentialIncrease (category : String) (change_percent : ℚ) :
    Feasibility × String × List Warning :=
  if change_percent ≤ 20 then
    (.comfortable, "Reasonable increase for essential category", [])
  else if change_percent ≤ 40 then
    (.moderate, "Noticeable increase - ensure it's necessary", [])
  else
    (.difficult, "Large increase for essential spending",
     [.substantialEssentialIncrease category change_percent])

/-- The discretionary-increase branch (reallocation.py lines 144-153). -/
def assessDiscretionaryIncrease (change_percent : ℚ) :
    Feasibility × String × List Warning :=
  if change_percent ≤ 50 then
    (.comfortable, "Comfortable discretionary increase", [])
  else if change_percent ≤ 100 then
    (.moderate, "Significant lifestyle upgrade", [])
  else
    (.difficult, "Major spending increase", [])

/-- The per-item analysis of the main loop (reallocation.py lines 92-163):
returns the `CategoryReallocation` detail together with the warnings the item
appends. -/
def analyzeCategory (essential : List String) (stats : List (String × CatStat))
    (elasticity_map : List (String × ℚ)) (category : String) (change : ℚ) :
    CategoryReallocation × List Warning :=
  if category ∈ ["SAVINGS", "OTHER"] ∧ 0 < change then
    ({ category := category, current_monthly := 0, change_amount := change,
       new_monthly := change, change_percent := 100, feasibility := .comfortable,
       impact_note := "Allocating to " ++ category }, [])
  else
    let current := getMean stats category
    let new_amount := current + change
    let cp := changePercent current change
    let category_elasticity := getElasticity elasticity_map category
    let assessed : Feasibility × String × List Warning :=
      if change < 0 then
        assessReduction category |cp| (category_elasticity * 100)
      else
        if category ∈ essential then assessEssentialIncrease category cp
        else assessDiscretionaryIncrease cp
    ({ category := category, current_monthly := current, change_amount := change,
       new_monthly := new_amount, change_percent := cp, feasibility := assessed.1,
       impact_note := assessed.2.1 }, assessed.2.2)

/-- Numeric difficulty of a feasibility band (`feasibility_scores`). -/
def feasibilityScore : Feasibility → ℚ
  | .comfortable => 0
  | .moderate => 1
  | .difficult => 2
  | .unrealistic => 3

/-- Overall verdict from the average difficulty (reallocation.py 169-176). -/
def overallAssessment (avg_difficulty : ℚ) : String :=
  if avg_difficulty ≤ 1/2 then "This reallocation is comfortable and achievable"
  else if avg_difficulty ≤ 3/2 then "This reallocation is moderately challenging but achievable"
  else if avg_difficulty ≤ 5/2 then "This reallocation will be difficult and requires strong commitment"
  else "This reallocation may be unrealistic - consider a more moderate approach"

/-- `simulate_reallocation` (reallocation.py lines 17-211).  The database
queries are abstracted as the `model` row and the list `txs` of debit amounts
inside the analysis window; `reallocations` keeps the Python dict's insertion
order.  On an empty `reallocations` dict the Python code divides by
`len(reallocation_details) = 0`, hence `zeroDivisionError`. -/
def simulate_reallocation (essential : List String) (model : Option BehaviourModel)
    (txs : List ℚ) (reallocations : List (String × ℚ)) :
    Except SimError ReallocationResponse :=
  match model with
  | none => .error .noBehaviourModel
  | some m =>
    if txs = [] then .error .noTransactions
    else
      let baseline_total := txs.sum
      let stats := m.category_stats
      let elasticity_map := m.elasticity
      let sources := (reallocations.filter (fun p => p.2 < 0)).map Prod.fst
      let targets := (reallocations.filter (fun p => 0 < p.2)).map Prod.fst
      match validateSources essential stats sources with
      | .error e => .error e
      | .ok _ =>
        match validateTargets essential targets with
        | .error e => .error e
        | .ok _ =>
          match validateCategoriesExist stats (reallocations.map Prod.fst) with
          | .error e => .error e
          | .ok _ =>
            let analyzed := reallocations.map
              (fun p => analyzeCategory essential stats elasticity_map p.1 p.2)
            let details := analyzed.map Prod.fst
            let warnings := (analyzed.map Prod.snd).flatten
            if details = [] then .error .zeroDivisionError
            else
              let avg_difficulty :=
                (details.map (fun r => feasibilityScore r.feasibility)).sum /
                  (details.length : ℚ)
              .ok { baseline_monthly := baseline_total,
                    projected_monthly := baseline_total,
                    is_balanced := true,
                    reallocations := details,
                    feasibility_assessment := overallAssessment avg_difficulty,
                    warnings := warnings }

/-! ### Spending projection (`projection.py`) -/

/-- Explicit model of Python's process-wide `random` generator as used by
`project_future_spending`: `seed n` resets the hidden state from the integer
seed, `next` draws `random.random()` — a value in `[0, 1]` — and advances the
state.  `random.uniform(a, b)` is `a + (b - a) * random.random()`. -/
structure RandomGen where
  seed : Nat → Nat
  next : Nat → ℚ × Nat
  next_nonneg : ∀ s, 0 ≤ (next s).1
  next_le_one : ∀ s, (next s).1 ≤ 1

/-- `random.uniform(a, b)` from state `s`: the drawn value and the new state. -/
def uniform (G : RandomGen) (a b : ℚ) (s : Nat) : ℚ × Nat :=
  (a + (b - a) * (G.next s).1, (G.next s).2)

/-- `round(x, 2)`: rounding to two decimal places (Python rounds ties to
even on floats; on the non-tie inputs modelled here this is ordinary
rounding). -/
def round2 (x : ℚ) : ℚ :=
  ((round (x * 100) : ℤ) : ℚ) / 100

/-- The natural variation drawn for a month: `random.seed(month_num)` is
called immediately before `random.uniform(-0.05, 0.05)`, so the value depends
only on the month index. -/
def variationAt (G : RandomGen) (month_num : Nat) : ℚ :=
  (uniform G (-(1/20)) (1/20) (G.seed month_num)).1

/-- The inner category loop of a projection month (projection.py lines
76-89), threading the generator state: returns the `category_spending`
association list (amounts rounded to 2 decimals), the unrounded
`month_total`, and the final generator state. -/
def projectCategories (G : RandomGen) (changes : List (String × ℚ)) (month_num : Nat) :
    List (String × CatStat) → Nat → List (String × ℚ) × ℚ × Nat
  | [], s => ([], 0, s)
  | (category, cat_stats) :: rest, _s =>
    let base_amount := cat_stats.mean
    let change_pct := (changes.lookup category).getD 0
    let adjusted_amount := base_amount * (1 + change_pct / 100)
    let seeded := G.seed month_num
    let drawn := uniform G (-(1/20)) (1/20) seeded
    let projected_amount := adjusted_amount * (1 + drawn.1)
    let r := projectCategories G changes month_num rest drawn.2
    ((category, round2 projected_amount) :: r.1, projected_amount + r.2.1, r.2.2)

/-- `confidence = max(0.5, 1.0 - month_num * 0.03)` (projection.py line 92). -/
def confidenceAt (month_num : Nat) : ℚ :=
  max (1/2) (1 - (month_num : ℚ) * (3/100))

/-- One element of `monthly_projections` (month label omitted: calendar
formatting only). -/
structure MonthlyProjection where
  month : Nat
  projected_spending : ℚ
  category_breakdown : List (String × ℚ)
  cumulative_change : ℚ
  confidence : ℚ
deriving Repr, DecidableEq

/-- The month loop of `project_future_spending` (projection.py lines 67-104):
`k` is the number of months still to produce, `month_num` the current index,
`cum` the running cumulative change, `s` the generator state. -/
def projectMonthsAux (G : RandomGen) (stats : List (String × CatStat))
    (changes : List (String × ℚ)) (baseline_monthly : ℚ) :
    Nat → Nat → ℚ → Nat → List MonthlyProjection
  | 0, _, _, _ => []
  | k + 1, month_num, cum, s =>
    let r := projectCategories G changes month_num stats s
    let month_total := r.2.1
    let cum2 := cum + (month_total - baseline_monthly)
    { month := month_num,
      projected_spending := round2 month_total,
      category_breakdown := r.1,
      cumulative_change := round2 cum2,
      confidence := confidenceAt month_num } ::
      projectMonthsAux G stats changes baseline_monthly k (month_num + 1) cum2 r.2.2

/-- The `ProjectionResponse` fields carrying numeric content (trend and
insight sentences, labels and chart payloads are presentation only). -/
structure ProjectionResponse where
  baseline_monthly : ℚ
  projection_months : Nat
  monthly_projections : List MonthlyProjection
  total_projected : ℚ
  total_baseline : ℚ
  cumulative_change : ℚ
deriving Repr, DecidableEq

/-- `project_future_spending` (projection.py lines 18-174), with the database
queries abstracted as `model` and the debit amounts `txs`, and the global
`random` generator passed explicitly with its incoming state `s0`. -/
def project_future_spending (G : RandomGen) (model : Option BehaviourModel)
    (txs : List ℚ) (projection_months : Nat)
    (behavioral_changes : List (String × ℚ)) (s0 : Nat) :
    Except SimError ProjectionResponse :=
  match model with
  | none => .error .noBehaviourModel
  | some m =>
    if txs = [] then .error .noTransactions
    else
      let baseline_monthly := txs.sum
      let monthly := projectMonthsAux G m.category_stats behavioral_changes
        baseline_monthly projection_months 1 0 s0
      let total_projected := (monthly.map (fun p => p.projected_spending)).sum
      let total_baseline := baseline_monthly * (projection_months : ℚ)
      .ok { baseline_monthly := baseline_monthly,
            projection_months := projection_months,
            monthly_projections := monthly,
            total_projected := round2 total_projected,
            total_baseline := round2 total_baseline,
            cumulative_change := round2 (total_projected - total_baseline) }

/-! ### Category reliability (`category_utils.py`) -/

/-- `count_score = min(1.0, log1p(count) / log1p(20))`
(category_utils.py line 64). -/
noncomputable def countScore (count : Nat) : ℝ :=
  min 1 (Real.log (1 + (count : ℝ)) / Real.log (1 + 20))

/-- The consistency factor (category_utils.py lines 68-72): coefficient of
variation when the mean is positive, the sentinel `0.5` otherwise. -/
def consistencyScore (mean std_dev : ℚ) : ℚ :=
  if 0 < mean then max 0 (1 - min 1 (std_dev / mean)) else 1/2

/-- `reliability = 0.7 * count_score + 0.3 * consistency_score`
(category_utils.py line 75). -/
noncomputable def reliabilityScore (count : Nat) (mean std_dev : ℚ) : ℝ :=
  (7/10) * countScore count + (3/10) * ((consistencyScore mean std_dev : ℚ) : ℝ)

/-- `get_category_reliability_score` (category_utils.py lines 35-77): `0.0`
when there is no model or the category is absent, otherwise the weighted
score of the category's stats. -/
noncomputable def get_category_reliability_score (model : Option BehaviourModel)
    (category : String) : ℝ :=
  match model with
  | none => 0
  | some m =>
    match m.category_stats.lookup category with
    | none => 0
    | some st => reliabilityScore st.count st.mean st.std_dev

/-! ### Helper lemmas -/

/-- A request error names a category of the request and the rule it breaks:
essential categories may not lose money, sources must exist in the stats, and
discretionary non-sink categories may not gain money. -/
def namesOffender (essential : List String) (stats : List (String × CatStat))
    (reallocations : List (String × ℚ)) : SimError → Prop
  | .essentialSource c => c ∈ essential ∧ ∃ v, (c, v) ∈ reallocations ∧ v < 0
  | .categoryNotInHistory c => stats.lookup c = none ∧ ∃ v, (c, v) ∈ reallocations ∧ v < 0
  | .discretionaryTarget c =>
      c ∉ essential ∧ c ∉ beneficialSinks ∧ ∃ v, (c, v) ∈ reallocations ∧ 0 < v
  | _ => False

lemma validateSources_ok {essential : List String} {stats : List (String × CatStat)} :
    ∀ {l : List String} {u : Unit}, validateSources essential stats l = .ok u →
      ∀ c ∈ l, c ∉ essential ∧ (stats.lookup c).isSome := by
  intro l
  induction l with
  | nil => intro u _ c hc; cases hc
  | cons a rest ih =>
    intro u h c hc
    rw [validateSources] at h
    split_ifs at h with h1 h2
    · rcases List.mem_cons.mp hc with rfl | hc'
      · simp only [Option.isNone_iff_eq_none] at h2
        exact ⟨h1, Option.isSome_iff_ne_none.mpr h2⟩
      · exact ih h c hc'

lemma validateSources_error {essential : List String} {stats : List (String × CatStat)} :
    ∀ {l : List String} {e : SimError}, validateSources essential stats l = .error e →
      (∃ c ∈ l, e = .essentialSource c ∧ c ∈ essential) ∨
      (∃ c ∈ l, e = .categoryNotInHistory c ∧ stats.lookup c = none) := by
  intro l
  induction l with
  | nil => intro e h; cases h
  | cons a rest ih =>
    intro e h
    rw [validateSources] at h
    split_ifs at h with h1 h2
    · exact Or.inl ⟨a, List.mem_cons_self a rest, (Except.error.inj h).symm, h1⟩
    · exact Or.inr ⟨a, List.mem_cons_self a rest, (Except.error.inj h).symm,
        Option.isNone_iff_eq_none.mp h2⟩
    · rcases ih h with ⟨c, hc, he⟩ | ⟨c, hc, he⟩
      · exact Or.inl ⟨c, List.mem_cons_of_mem a hc, he⟩
      · exact Or.inr ⟨c, List.mem_cons_of_mem a hc, he⟩

lemma validateTargets_ok {essential : List String} :
    ∀ {l : List String} {u : Unit}, validateTargets essential l = .ok u →
      ∀ c ∈ l, ¬(c ∉ essential ∧ c ∉ beneficialSinks) := by
  intro l
  induction l with
  | nil => intro u _ c hc; cases hc
  | cons a rest ih =>
    intro u h c hc
    rw [validateTargets] at h
    split_ifs at h with h1
    rcases List.mem_cons.mp hc with rfl | hc'
    · exact h1
    · exact ih h c hc'

lemma validateTargets_error {essential : List String} :
    ∀ {l : List String} {e : SimError}, validateTargets essential l = .error e →
      ∃ c ∈ l, e = .discretionaryTarget c ∧ c ∉ essential ∧ c ∉ beneficialSinks := by
  intro l
  induction l with
  | nil => intro e h; cases h
  | cons a rest ih =>
    intro e h
    rw [validateTargets] at h
    split_ifs at h with h1
    · exact ⟨a, List.mem_cons_self a rest, (Except.error.inj h).symm, h1⟩
    · rcases ih h with ⟨c, hc, he⟩
      exact ⟨c, List.mem_cons_of_mem a hc, he⟩

/-- A category appears in the validated source list exactly when it carries a
negative delta in the request. -/
lemma mem_sources_iff {re : List (String × ℚ)} {c : String} :
    c ∈ (re.filter (fun p => p.2 < 0)).map Prod.fst ↔ ∃ v, (c, v) ∈ re ∧ v < 0 := by
  constructor
  · intro hc
    rcases List.mem_map.mp hc with ⟨p, hp, rfl⟩
    rcases List.mem_filter.mp hp with ⟨hmem, hlt⟩
    exact ⟨p.2, hmem, by simpa using hlt⟩
  · rintro ⟨v, hv, hlt⟩
    exact List.mem_map.mpr ⟨(c, v), List.mem_filter.mpr ⟨hv, by simpa using hlt⟩, rfl⟩

/-- A category appears in the validated target list exactly when it carries a
positive delta in the request. -/
lemma mem_targets_iff {re : List (String × ℚ)} {c : String} :
    c ∈ (re.filter (fun p => 0 < p.2)).map Prod.fst ↔ ∃ v, (c, v) ∈ re ∧ 0 < v := by
  constructor
  · intro hc
    rcases List.mem_map.mp hc with ⟨p, hp, rfl⟩
    rcases List.mem_filter.mp hp with ⟨hmem, hlt⟩
    exact ⟨p.2, hmem, by simpa using hlt⟩
  · rintro ⟨v, hv, hlt⟩
    exact List.mem_map.mpr ⟨(c, v), List.mem_filter.mpr ⟨hv, by simpa using hlt⟩, rfl⟩

lemma simulate_eq_of_sources_error {essential : List String} {m : BehaviourModel}
    {txs : List ℚ} {re : List (String × ℚ)} {e : SimError} (ht : ¬txs = [])
    (hv : validateSources essential m.category_stats
      ((re.filter (fun p => p.2 < 0)).map Prod.fst) = .error e) :
    simulate_reallocation essential (some m) txs re = .error e := by
  simp only [simulate_reallocation, if_neg ht, hv]

lemma simulate_eq_of_targets_error {essential : List String} {m : BehaviourModel}
    {txs : List ℚ} {re : List (String × ℚ)} {u : Unit} {e : SimError} (ht : ¬txs = [])
    (hs : validateSources essential m.category_stats
      ((re.filter (fun p => p.2 < 0)).map Prod.fst) = .ok u)
    (hv : validateTargets essential ((re.filter (fun p => 0 < p.2)).map Prod.fst) = .error e) :
    simulate_reallocation essential (some m) txs re = .error e := by
  simp only [simulate_reallocation, if_neg ht, hs, hv]

lemma assessReduction_bands (category : String) (r M : ℚ) :
    (assessReduction category r M).1 =
      (if r ≤ M * (1/2) then .comfortable else if r ≤ M then .moderate
       else if r ≤ M * (3/2) then .difficult else .unrealistic) ∧
    ((assessReduction category r M).1 = .difficult ∨
      (assessReduction category r M).1 = .unrealistic →
      (assessReduction category r M).2.2 ≠ []) := by
  unfold assessReduction
  split_ifs <;> simp

/-! ### Claims -/

/-- C1: for a negative-delta category with positive current mean, the
simulator classifies feasibility by comparing the reduction percentage
`|delta| / current_mean * 100` against the ceiling `elasticity * 100`:
comfortable up to 50% of the ceiling, moderate up to 100%, difficult up to
150% (with a warning), unrealistic above 150% (with a warning). -/
theorem reduction_band_classification
    (essential : List String) (stats : List (String × CatStat))
    (elasticity_map : List (String × ℚ)) (category : String) (change : ℚ)
    (hneg : change < 0) (hpos : 0 < getMean stats category) :
    (analyzeCategory essential stats elasticity_map category change).1.feasibility =
      (if |change| / getMean stats category * 100 ≤
          getElasticity elasticity_map category * 100 * (1/2) then .comfortable
       else if |change| / getMean stats category * 100 ≤
          getElasticity elasticity_map category * 100 then .moderate
       else if |change| / getMean stats category * 100 ≤
          getElasticity elasticity_map category * 100 * (3/2) then .difficult
       else .unrealistic) ∧
    (((analyzeCategory essential stats elasticity_map category change).1.feasibility =
        .difficult ∨
      (analyzeCategory essential stats elasticity_map category change).1.feasibility =
        .unrealistic) →
      (analyzeCategory essential stats elasticity_map category change).2 ≠ []) := by
  have hnotsav : ¬(category ∈ ["SAVINGS", "OTHER"] ∧ 0 < change) :=
    fun h => absurd hneg (asymm h.2)
  have hcp : changePercent (getMean stats category) change =
      change / getMean stats category * 100 := by
    rw [changePercent, if_pos hpos]
  have habs : |change / getMean stats category * 100| =
      |change| / getMean stats category * 100 := by
    rw [abs_mul, abs_div, abs_of_pos hpos]
    norm_num
  have hfe : (analyzeCategory essential stats elasticity_map category change).1.feasibility =
      (assessReduction category (|change| / getMean stats category * 100)
        (getElasticity elasticity_map category * 100)).1 := by
    simp only [analyzeCategory, if_neg hnotsav, if_pos hneg, hcp, habs]
  have hwa : (analyzeCategory essential stats elasticity_map category change).2 =
      (assessReduction category (|change| / getMean stats category * 100)
        (getElasticity elasticity_map category * 100)).2.2 := by
    simp only [analyzeCategory, if_neg hnotsav, if_pos hneg, hcp, habs]
  rw [hfe, hwa]
  exact assessReduction_bands category (|change| / getMean stats category * 100)
    (getElasticity elasticity_map category * 100)

/-- C1 witness: the worked example — a 60% reduction (mean 100, delta −60)
against a 40% ceiling (elasticity 0.4) is classified `difficult`, not
`comfortable`. -/
theorem reduction_band_classification_witness :
    (analyzeCategory [] [("DINING", ⟨10, 100, 0⟩)] [("DINING", 2/5)] "DINING"
      (-60)).1.feasibility = .difficult := by
  have h := reduction_band_classification [] [("DINING", ⟨10, 100, 0⟩)]
    [("DINING", 2/5)] "DINING" (-60) (by norm_num)
    (by norm_num [getMean, List.lookup])
  rw [h.1]
  norm_num [getMean, getElasticity, List.lookup]

/-- C3: a request containing a negative-delta category that is essential, or
absent from the category statistics, is rejected with an error naming an
offending source category, and no feasibility classification is produced
(the result is an error, not a response). -/
theorem invalid_source_rejected (essential : List String) (m : BehaviourModel)
    (txs : List ℚ) (re : List (String × ℚ)) (ht : txs ≠ [])
    (hbad : ∃ p ∈ re, p.2 < 0 ∧ (p.1 ∈ essential ∨ m.category_stats.lookup p.1 = none)) :
    ∃ e, simulate_reallocation essential (some m) txs re = .error e ∧
      ((∃ c, e = SimError.essentialSource c ∧ c ∈ essential ∧
          ∃ v, (c, v) ∈ re ∧ v < 0) ∨
       (∃ c, e = SimError.categoryNotInHistory c ∧ m.category_stats.lookup c = none ∧
          ∃ v, (c, v) ∈ re ∧ v < 0)) := by
  rcases hbad with ⟨p, hp, hneg, hrule⟩
  have hmem : p.1 ∈ (re.filter (fun q => q.2 < 0)).map Prod.fst :=
    mem_sources_iff.mpr ⟨p.2, hp, hneg⟩
  cases hv : validateSources essential m.category_stats
      ((re.filter (fun q => q.2 < 0)).map Prod.fst) with
  | ok u =>
    rcases validateSources_ok hv p.1 hmem with ⟨hne, hsome⟩
    rcases hrule with hcess | hnone
    · exact absurd hcess hne
    · rw [hnone] at hsome; cases hsome
  | error e =>
    refine ⟨e, simulate_eq_of_sources_error ht hv, ?_⟩
    rcases validateSources_error hv with ⟨c, hc, rfl, hcess⟩ | ⟨c, hc, rfl, hcnone⟩
    · rcases mem_sources_iff.mp hc with ⟨v, hv', hvneg⟩
      exact Or.inl ⟨c, rfl, hcess, v, hv', hvneg⟩
    · rcases mem_sources_iff.mp hc with ⟨v, hv', hvneg⟩
      exact Or.inr ⟨c, rfl, hcnone, v, hv', hvneg⟩

/-- C3 witness: reducing the essential category GROCERIES is rejected. -/
theorem invalid_source_rejected_witness :
    ∃ e, simulate_reallocation ["GROCERIES"] (some ⟨[], [], 0⟩) [(5:ℚ)]
        [("GROCERIES", -10)] = .error e ∧
      ((∃ c, e = SimError.essentialSource c ∧ c ∈ ["GROCERIES"] ∧
          ∃ v, (c, v) ∈ [("GROCERIES", (-10:ℚ))] ∧ v < 0) ∨
       (∃ c, e = SimError.categoryNotInHistory c ∧
          (BehaviourModel.mk [] [] 0).category_stats.lookup c = none ∧
          ∃ v, (c, v) ∈ [("GROCERIES", (-10:ℚ))] ∧ v < 0)) :=
  invalid_source_rejected ["GROCERIES"] ⟨[], [], 0⟩ [(5:ℚ)] [("GROCERIES", -10)]
    (by simp)
    ⟨("GROCERIES", -10), by simp, by norm_num, Or.inl (by simp)⟩

/-- C4: a request containing a positive-delta category that is neither
essential nor one of the beneficial sinks (SAVINGS, DEBT_PAYMENT, INVESTMENT)
is rejected, and the error identifies an offending category of the request
together with the rule it violates. -/
theorem invalid_target_rejected (essential : List String) (m : BehaviourModel)
    (txs : List ℚ) (re : List (String × ℚ)) (ht : txs ≠ [])
    (hbad : ∃ p ∈ re, 0 < p.2 ∧ p.1 ∉ essential ∧ p.1 ∉ beneficialSinks) :
    ∃ e, simulate_reallocation essential (some m) txs re = .error e ∧
      namesOffender essential m.category_stats re e := by
  rcases hbad with ⟨p, hp, hposv, hrule⟩
  cases hv : validateSources essential m.category_stats
      ((re.filter (fun q => q.2 < 0)).map Prod.fst) with
  | error e =>
    refine ⟨e, simulate_eq_of_sources_error ht hv, ?_⟩
    rcases validateSources_error hv with ⟨c, hc, rfl, hcess⟩ | ⟨c, hc, rfl, hcnone⟩
    · rcases mem_sources_iff.mp hc with ⟨v, hv', hvneg⟩
      exact ⟨hcess, v, hv', hvneg⟩
    · rcases mem_sources_iff.mp hc with ⟨v, hv', hvneg⟩
      exact ⟨hcnone, v, hv', hvneg⟩
  | ok u =>
    have hmem : p.1 ∈ (re.filter (fun q => 0 < q.2)).map Prod.fst :=
      mem_targets_iff.mpr ⟨p.2, hp, hposv⟩
    cases hv2 : validateTargets essential ((re.filter (fun q => 0 < q.2)).map Prod.fst) with
    | ok u2 => exact absurd hrule (validateTargets_ok hv2 p.1 hmem)
    | error e =>
      refine ⟨e, simulate_eq_of_targets_error ht hv hv2, ?_⟩
      rcases validateTargets_error hv2 with ⟨c, hc, rfl, hcess, hcsink⟩
      rcases mem_targets_iff.mp hc with ⟨v, hv', hvpos⟩
      exact ⟨hcess, hcsink, v, hv', hvpos⟩

/-- C4 witness: increasing the discretionary category DINING (no essential
taxonomy entry, not a sink) is rejected with an error naming it. -/
theorem invalid_target_rejected_witness :
    ∃ e, simulate_reallocation [] (some ⟨[], [], 0⟩) [(5:ℚ)] [("DINING", 10)] = .error e ∧
      namesOffender [] (BehaviourModel.mk [] [] 0).category_stats [("DINING", (10:ℚ))] e :=
  invalid_target_rejected [] ⟨[], [], 0⟩ [(5:ℚ)] [("DINING", 10)]
    (by simp)
    ⟨("DINING", 10), by simp, by norm_num, by simp, by simp [beneficialSinks]⟩

/-- C10: the simulator never rejects a request for failing to net to zero;
whenever it returns a response, that response reports
`projected_monthly = baseline_monthly` and `is_balanced = true` regardless of
the actual net sum of the deltas. -/
theorem imbalanced_request_classified (essential : List String)
    (model : Option BehaviourModel) (txs : List ℚ) (re : List (String × ℚ))
    (r : ReallocationResponse)
    (h : simulate_reallocation essential model txs re = .ok r) :
    r.projected_monthly = r.baseline_monthly ∧ r.is_balanced = true := by
  cases model with
  | none => cases h
  | some m =>
    rw [simulate_reallocation] at h
    split_ifs at h
    simp only [] at h
    split at h
    · cases h
    · split at h
      · cases h
      · split at h
        · cases h
        · split_ifs at h
          cases h
          exact ⟨rfl, rfl⟩

/-- C10 witness: a request whose single delta (+10 to SAVINGS) nets to +10,
not zero, is still classified and its response reports the baseline as
projected with `is_balanced = true`. -/
theorem imbalanced_request_classified_witness :
    ∃ r, simulate_reallocation ["GROCERIES"] (some ⟨[], [], 0⟩) [(5:ℚ)]
        [("SAVINGS", 10)] = .ok r ∧
      r.projected_monthly = r.baseline_monthly ∧ r.is_balanced = true := by
  have h : simulate_reallocation ["GROCERIES"] (some ⟨[], [], 0⟩) [(5:ℚ)]
      [("SAVINGS", 10)] =
      .ok ⟨5, 5, true, [⟨"SAVINGS", 0, 10, 10, 100, .comfortable,
        "Allocating to SAVINGS"⟩],
        "This reallocation is comfortable and achievable", []⟩ := by
    norm_num [simulate_reallocation, validateSources, validateTargets,
      validateCategoriesExist, analyzeCategory, feasibilityScore,
      overallAssessment, beneficialSinks]
    rfl
  exact ⟨_, h, imbalanced_request_classified _ _ _ _ _ h⟩

/-- Fixed example generator used by counterexamples and witnesses: the draw
is always `1/2` (so `uniform (-0.05, 0.05)` yields `0`). -/
def halfGen : RandomGen where
  seed := fun n => n
  next := fun s => (1/2, s + 1)
  next_nonneg := fun _ => by norm_num
  next_le_one := fun _ => by norm_num

/-- C2 counterexample: with a behaviour model present but no transactions in
the analysis window, both `simulate_reallocation` and
`project_future_spending` raise (`ValueError: No transactions found in the
specified period`, modelled as `Except.error .noTransactions`) — the
insufficient-data condition IS an exception path, contradicting the claim
that such calls do not raise. -/
theorem insufficient_data_raises_cx :
    simulate_reallocation ["GROCERIES"]
        (some ⟨[("DINING", ⟨5, 100, 10⟩)], [("DINING", 2/5)], 0⟩) [] [("DINING", -10)] =
      .error .noTransactions ∧
    project_future_spending halfGen
        (some ⟨[("DINING", ⟨5, 100, 10⟩)], [], 0⟩) [] 3 [] 0 =
      .error .noTransactions :=
  ⟨rfl, rfl⟩

/-- C2 amended: an insufficient-data condition (no transactions in the
analysis window) is reported by raising `ValueError` from both the
reallocation simulator and the spending projector — it is an exception, not a
distinct normal outcome. -/
theorem insufficient_data_error_path (essential : List String) (m : BehaviourModel)
    (re : List (String × ℚ)) (G : RandomGen) (months : Nat)
    (changes : List (String × ℚ)) (s0 : Nat) (txs : List ℚ) (h : txs = []) :
    simulate_reallocation essential (some m) txs re = .error .noTransactions ∧
    project_future_spending G (some m) txs months changes s0 =
      .error .noTransactions := by
  subst h
  exact ⟨rfl, rfl⟩

/-- C2 amended witness. -/
theorem insufficient_data_error_path_witness :
    simulate_reallocation [] (some ⟨[], [], 0⟩) [] [] = .error .noTransactions ∧
    project_future_spending halfGen (some ⟨[], [], 0⟩) [] 2 [] 0 =
      .error .noTransactions :=
  insufficient_data_error_path [] ⟨[], [], 0⟩ [] halfGen 2 [] 0 [] rfl

/-! ### Projection claims -/

lemma projectCategories_state_irrelevant (G : RandomGen) (changes : List (String × ℚ))
    (month_num : Nat) (stats : List (String × CatStat)) (s s' : Nat) :
    (projectCategories G changes month_num stats s).1 =
      (projectCategories G changes month_num stats s').1 ∧
    (projectCategories G changes month_num stats s).2.1 =
      (projectCategories G changes month_num stats s').2.1 := by
  cases stats with
  | nil => exact ⟨rfl, rfl⟩
  | cons p rest => cases p; exact ⟨rfl, rfl⟩

lemma projectMonthsAux_state_irrelevant (G : RandomGen) (stats : List (String × CatStat))
    (changes : List (String × ℚ)) (baseline : ℚ) :
    ∀ (k month_num : Nat) (cum : ℚ) (s s' : Nat),
      projectMonthsAux G stats changes baseline k month_num cum s =
        projectMonthsAux G stats changes baseline k month_num cum s' := by
  intro k
  induction k with
  | zero => intro _ _ _ _; rfl
  | succ k ih =>
    intro month_num cum s s'
    cases stats with
    | cons p rest => cases p; rfl
    | nil =>
      simp only [projectMonthsAux, projectCategories]
      exact congrArg _ (ih (month_num + 1) _ s s')

/-- C5: repeated calls of the spending projector with identical inputs give
identical outputs whatever the incoming state of the process-wide random
generator: `random.seed(month_num)` makes the natural-variation draw a
function of the month index alone, so the result does not depend on call
order or prior random use. -/
theorem projection_deterministic (G : RandomGen) (model : Option BehaviourModel)
    (txs : List ℚ) (projection_months : Nat) (behavioral_changes : List (String × ℚ))
    (s1 s2 : Nat) :
    project_future_spending G model txs projection_months behavioral_changes s1 =
      project_future_spending G model txs projection_months behavioral_changes s2 := by
  cases model with
  | none => rfl
  | some m =>
    by_cases ht : txs = []
    · simp [project_future_spending, ht]
    · simp only [project_future_spending, if_neg ht]
      rw [projectMonthsAux_state_irrelevant G m.category_stats behavioral_changes txs.sum
        projection_months 1 0 s1 s2]

lemma variationAt_bounds (G : RandomGen) (m : Nat) :
    -(1/20) ≤ variationAt G m ∧ variationAt G m ≤ 1/20 := by
  unfold variationAt uniform
  constructor
  · have h := G.next_nonneg (G.seed m)
    nlinarith
  · have h := G.next_le_one (G.seed m)
    nlinarith

lemma projectCategories_spec (G : RandomGen) (changes : List (String × ℚ))
    (month_num : Nat) :
    ∀ (stats : List (String × CatStat)) (s : Nat),
      (projectCategories G changes month_num stats s).1 =
        stats.map (fun p => (p.1,
          round2 (p.2.mean * (1 + ((changes.lookup p.1).getD 0) / 100) *
            (1 + variationAt G month_num)))) ∧
      (projectCategories G changes month_num stats s).2.1 =
        (stats.map (fun p => p.2.mean * (1 + ((changes.lookup p.1).getD 0) / 100) *
          (1 + variationAt G month_num))).sum := by
  intro stats
  induction stats with
  | nil => intro s; exact ⟨rfl, by simp [projectCategories]⟩
  | cons p rest ih =>
    intro s
    cases p with
    | mk c cs =>
      constructor
      · simp only [projectCategories, variationAt, List.map_cons]
        rw [(ih _).1]
        simp only [variationAt]
      · simp only [projectCategories, variationAt, List.map_cons, List.sum_cons]
        rw [(ih _).2]
        simp only [variationAt]

/-- C6: in every projection month, each category's projected amount is
`base * (1 + change_pct/100) * (1 + variation)` — the month total sums these
amounts and the stored per-category breakdown rounds them to two decimals —
with the natural variation bounded in `[-0.05, 0.05]`. -/
theorem projection_formula (G : RandomGen) (changes : List (String × ℚ))
    (month_num : Nat) (stats : List (String × CatStat)) (s : Nat) :
    (projectCategories G changes month_num stats s).1 =
      stats.map (fun p => (p.1,
        round2 (p.2.mean * (1 + ((changes.lookup p.1).getD 0) / 100) *
          (1 + variationAt G month_num)))) ∧
    (projectCategories G changes month_num stats s).2.1 =
      (stats.map (fun p => p.2.mean * (1 + ((changes.lookup p.1).getD 0) / 100) *
        (1 + variationAt G month_num))).sum ∧
    -(1/20) ≤ variationAt G month_num ∧ variationAt G month_num ≤ 1/20 :=
  ⟨(projectCategories_spec G changes month_num stats s).1,
   (projectCategories_spec G changes month_num stats s).2,
   (variationAt_bounds G month_num).1, (variationAt_bounds G month_num).2⟩

lemma projectMonthsAux_mem (G : RandomGen) (stats : List (String × CatStat))
    (changes : List (String × ℚ)) (baseline : ℚ) :
    ∀ (k month_num : Nat) (cum : ℚ) (s : Nat) (p : MonthlyProjection),
      p ∈ projectMonthsAux G stats changes baseline k month_num cum s →
      p.confidence = confidenceAt p.month ∧ month_num ≤ p.month ∧
        p.month < month_num + k := by
  intro k
  induction k with
  | zero => intro _ _ _ p hp; cases hp
  | succ k ih =>
    intro month_num cum s p hp
    simp only [projectMonthsAux] at hp
    rcases List.mem_cons.mp hp with rfl | hp'
    · refine ⟨rfl, le_rfl, ?_⟩
      show month_num < month_num + (k + 1)
      omega
    · rcases ih (month_num + 1) _ _ p hp' with ⟨h1, h2, h3⟩
      exact ⟨h1, by omega, by omega⟩

lemma confidenceAt_antitone {i j : Nat} (h : i ≤ j) : confidenceAt j ≤ confidenceAt i := by
  unfold confidenceAt
  have hc : (i : ℚ) ≤ (j : ℚ) := by exact_mod_cast h
  exact max_le_max le_rfl (by linarith)

/-- C7: every month entry of the projector's output carries confidence
`max(0.5, 1 - 0.03 * month)` for its month index `m ∈ 1..horizon`; the
confidence never drops below the positive floor 0.5 and is non-increasing in
the month index. -/
theorem confidence_monotone_floor (G : RandomGen) (model : Option BehaviourModel)
    (txs : List ℚ) (projection_months : Nat) (changes : List (String × ℚ)) (s0 : Nat)
    (r : ProjectionResponse)
    (h : project_future_spending G model txs projection_months changes s0 = .ok r) :
    (∀ p ∈ r.monthly_projections,
        p.confidence = max (1/2) (1 - (p.month : ℚ) * (3/100)) ∧
        (1/2 : ℚ) ≤ p.confidence ∧ 1 ≤ p.month ∧ p.month ≤ projection_months) ∧
    (∀ p ∈ r.monthly_projections, ∀ q ∈ r.monthly_projections,
        p.month ≤ q.month → q.confidence ≤ p.confidence) := by
  cases model with
  | none => cases h
  | some m =>
    rw [project_future_spending] at h
    split_ifs at h
    simp only [] at h
    cases h
    constructor
    · intro p hp
      rcases projectMonthsAux_mem G m.category_stats changes txs.sum
        projection_months 1 0 s0 p hp with ⟨h1, h2, h3⟩
      refine ⟨by rw [h1]; rfl, ?_, h2, by omega⟩
      rw [h1]
      exact le_max_left _ _
    · intro p hp q hq hle
      rcases projectMonthsAux_mem G m.category_stats changes txs.sum
        projection_months 1 0 s0 p hp with ⟨h1, -, -⟩
      rcases projectMonthsAux_mem G m.category_stats changes txs.sum
        projection_months 1 0 s0 q hq with ⟨h1', -, -⟩
      rw [h1, h1']
      exact confidenceAt_antitone hle

/-- C7 witness: a concrete one-month projection whose single entry has
confidence `max(0.5, 1 - 0.03) = 0.97`. -/
theorem confidence_monotone_floor_witness :
    (∀ p ∈ (ProjectionResponse.mk 100 1
        [⟨1, 100, [("A", 100)], 0, 97/100⟩] 100 100 0).monthly_projections,
        p.confidence = max (1/2) (1 - (p.month : ℚ) * (3/100)) ∧
        (1/2 : ℚ) ≤ p.confidence ∧ 1 ≤ p.month ∧ p.month ≤ 1) ∧
    (∀ p ∈ (ProjectionResponse.mk 100 1
        [⟨1, 100, [("A", 100)], 0, 97/100⟩] 100 100 0).monthly_projections,
      ∀ q ∈ (ProjectionResponse.mk 100 1
        [⟨1, 100, [("A", 100)], 0, 97/100⟩] 100 100 0).monthly_projections,
        p.month ≤ q.month → q.confidence ≤ p.confidence) :=
  confidence_monotone_floor halfGen (some ⟨[("A", ⟨5, 100, 0⟩)], [], 0⟩) [(100:ℚ)] 1 [] 0
    ⟨100, 1, [⟨1, 100, [("A", 100)], 0, 97/100⟩], 100, 100, 0⟩
    (by norm_num [project_future_spending, projectMonthsAux, projectCategories, uniform,
      halfGen, confidenceAt, round2, round_eq, List.lookup])

/-! ### Reliability claims -/

lemma log21_pos : (0:ℝ) < Real.log (1 + 20) := Real.log_pos (by norm_num)

lemma countScore_mono {c1 c2 : Nat} (h : c1 ≤ c2) : countScore c1 ≤ countScore c2 := by
  unfold countScore
  refine min_le_min le_rfl ?_
  refine (div_le_div_iff_of_pos_right log21_pos).mpr ?_
  refine Real.log_le_log (by positivity) ?_
  have hc : (c1 : ℝ) ≤ (c2 : ℝ) := by exact_mod_cast h
  linarith

lemma countScore_twenty : countScore 20 = 1 := by
  unfold countScore
  have h20 : (1 + ((20:ℕ):ℝ)) = 1 + 20 := by norm_num
  rw [h20, div_self (ne_of_gt log21_pos), min_self]

lemma countScore_hundred : countScore 100 = 1 := by
  unfold countScore
  have h100 : (1 + ((100:ℕ):ℝ)) = 101 := by norm_num
  rw [h100]
  refine min_eq_left ((one_le_div log21_pos).mpr ?_)
  exact Real.log_le_log (by norm_num) (by norm_num)

/-- C8: with mean and standard deviation held fixed, the category reliability
score is non-decreasing in the transaction count, and it saturates: the
scores at count 20 and count 100 differ by less than 0.01 (they are in fact
equal, the log-scale count factor having reached its cap of 1 at 20). -/
theorem reliability_monotone_saturation :
    (∀ (mean std_dev : ℚ) (c1 c2 : Nat), c1 ≤ c2 →
        reliabilityScore c1 mean std_dev ≤ reliabilityScore c2 mean std_dev) ∧
    (∀ (mean std_dev : ℚ),
        |reliabilityScore 20 mean std_dev - reliabilityScore 100 mean std_dev| < 1/100) := by
  constructor
  · intro mean std c1 c2 h
    unfold reliabilityScore
    exact add_le_add_right (mul_le_mul_of_nonneg_left (countScore_mono h) (by norm_num)) _
  · intro mean std
    unfold reliabilityScore
    rw [countScore_twenty, countScore_hundred, sub_self, abs_zero]
    norm_num

/-- C8 witness at counts 3 ≤ 7 with mean 50, std_dev 10. -/
theorem reliability_monotone_saturation_witness :
    reliabilityScore 3 50 10 ≤ reliabilityScore 7 50 10 :=
  reliability_monotone_saturation.1 50 10 3 7 (by norm_num)

/-- C9: a zero (or negative) denominator is special-cased to a sentinel
rather than raised: a non-positive category mean makes the reliability score
use the default consistency 0.5 instead of dividing `std_dev / mean`, and a
non-positive current mean makes the reallocation simulator report a change
percent of 0 instead of dividing by it. -/
theorem zero_denominator_sentinel :
    (∀ (count : Nat) (mean std_dev : ℚ), mean ≤ 0 →
        reliabilityScore count mean std_dev =
          (7/10) * countScore count + (3/10) * ((1:ℝ)/2)) ∧
    (∀ current change : ℚ, current ≤ 0 → changePercent current change = 0) := by
  constructor
  · intro count mean std h
    unfold reliabilityScore consistencyScore
    rw [if_neg (not_lt.mpr h)]
    norm_num
  · intro current change h
    rw [changePercent, if_neg (not_lt.mpr h)]

/-- C9 witness at mean 0 (zero denominator for the coefficient of variation)
and current mean 0 (zero denominator for the change percent). -/
theorem zero_denominator_sentinel_witness :
    reliabilityScore 5 0 3 = (7/10) * countScore 5 + (3/10) * ((1:ℝ)/2) ∧
    changePercent 0 7 = 0 :=
  ⟨zero_denominator_sentinel.1 5 0 3 le_rfl, zero_denominator_sentinel.2 0 7 le_rfl⟩

end Volt
